import Mathlib

/-!
Shallow embedding of `generate_ranking.py` (year-over-year ranking
visualization, "Version 2.0").  Python dictionaries are modelled as
association lists with last-write-wins lookup, floats as rationals,
and the matplotlib drawing calls as an explicit list of `Artist` values
emitted in program order.
-/

/-- Last-write-wins lookup in an association list: models `d[k]` /
`d.get(k)` on a Python dict built by repeated assignment. -/
def lookupLast {α : Type} (d : List (String × α)) (k : String) : Option α :=
  match d with
  | [] => none
  | (k', v) :: rest =>
    match lookupLast rest k with
    | some r => some r
    | none => if k' = k then some v else none

/-- Dict assignment `d[k] = v`: overwrite in place when the key exists,
append otherwise (preserving CPython dict insertion order). -/
def insertDict {α : Type} (d : List (String × α)) (k : String) (v : α) :
    List (String × α) :=
  if (lookupLast d k).isSome then
    d.map (fun p => if p.1 = k then (k, v) else p)
  else
    d ++ [(k, v)]

/-- Helper for `dedupFirst`. -/
def dedupFirstAux (seen : List String) : List String → List String
  | [] => []
  | x :: xs =>
    if x ∈ seen then dedupFirstAux seen xs
    else x :: dedupFirstAux (x :: seen) xs

/-- Deduplication keeping the first occurrence.  Models the key list of a
Python dict/set; CPython set iteration order is implementation defined,
the embedding fixes first-occurrence order. -/
def dedupFirst (l : List String) : List String := dedupFirstAux [] l

/-- Lexicographic less-or-equal on code-point lists, the order CPython
uses to compare strings. -/
def strLeB : List Char → List Char → Bool
  | [], _ => true
  | _ :: _, [] => false
  | a :: as, b :: bs =>
    if a.toNat < b.toNat then true
    else if b.toNat < a.toNat then false
    else strLeB as bs

/-- Python string `<=`. -/
def pyStrLe (a b : String) : Bool := strLeB a.data b.data

/-- Python `sorted` on strings: ascending code-point order (stable; the
key lists it is applied to have no duplicates). -/
def sortStrings (l : List String) : List String :=
  l.insertionSort (fun a b => pyStrLe a b = true)

/-- Value of one hexadecimal digit character (0 for non-hex input). -/
def hexDigitVal (c : Char) : Nat :=
  if '0' ≤ c ∧ c ≤ '9' then c.toNat - '0'.toNat
  else if 'a' ≤ c ∧ c ≤ 'f' then c.toNat - 'a'.toNat + 10
  else if 'A' ≤ c ∧ c ≤ 'F' then c.toNat - 'A'.toNat + 10
  else 0

/-- Byte value of the two hex digits at positions `i`, `i+1` of `cs`. -/
def hexByteAt (cs : List Char) (i : Nat) : Nat :=
  16 * hexDigitVal (cs.getD i '0') + hexDigitVal (cs.getD (i + 1) '0')

/-- Lowercase hex digit character for `n < 16`. -/
def hexDigitChar (n : Nat) : Char :=
  if n < 10 then Char.ofNat ('0'.toNat + n) else Char.ofNat ('a'.toNat + (n - 10))

/-- Two lowercase hex digits of a byte: Python `'{:02x}'.format(n)`. -/
def hex2 (n : Nat) : String :=
  String.mk [hexDigitChar (n / 16 % 16), hexDigitChar (n % 16)]

/-- Parse `'#RRGGBB'` to an RGB triple of rationals in `[0,1]`:
models matplotlib `to_rgba` on hex color strings (alpha dropped). -/
def to_rgb (hex : String) : ℚ × ℚ × ℚ :=
  let cs := hex.data.drop 1
  ((hexByteAt cs 0 : ℚ) / 255, (hexByteAt cs 2 : ℚ) / 255, (hexByteAt cs 4 : ℚ) / 255)

/-! ### MD5 (hashlib.md5), on byte lists, words as `Nat` mod 2^32 -/

/-- MD5 per-round left-rotation amounts. -/
def md5_s : List Nat :=
  [7, 12, 17, 22, 7, 12, 17, 22, 7, 12, 17, 22, 7, 12, 17, 22,
   5, 9, 14, 20, 5, 9, 14, 20, 5, 9, 14, 20, 5, 9, 14, 20,
   4, 11, 16, 23, 4, 11, 16, 23, 4, 11, 16, 23, 4, 11, 16, 23,
   6, 10, 15, 21, 6, 10, 15, 21, 6, 10, 15, 21, 6, 10, 15, 21]

/-- MD5 sine-derived additive constants. -/
def md5_K : List Nat :=
  [0xd76aa478, 0xe8c7b756, 0x242070db, 0xc1bdceee,
   0xf57c0faf, 0x4787c62a, 0xa8304613, 0xfd469501,
   0x698098d8, 0x8b44f7af, 0xffff5bb1, 0x895cd7be,
   0x6b901122, 0xfd987193, 0xa679438e, 0x49b40821,
   0xf61e2562, 0xc040b340, 0x265e5a51, 0xe9b6c7aa,
   0xd62f105d, 0x02441453, 0xd8a1e681, 0xe7d3fbc8,
   0x21e1cde6, 0xc33707d6, 0xf4d50d87, 0x455a14ed,
   0xa9e3e905, 0xfcefa3f8, 0x676f02d9, 0x8d2a4c8a,
   0xfffa3942, 0x8771f681, 0x6d9d6122, 0xfde5380c,
   0xa4beea44, 0x4bdecfa9, 0xf6bb4b60, 0xbebfbc70,
   0x289b7ec6, 0xeaa127fa, 0xd4ef3085, 0x04881d05,
   0xd9d4d039, 0xe6db99e5, 0x1fa27cf8, 0xc4ac5665,
   0xf4292244, 0x432aff97, 0xab9423a7, 0xfc93a039,
   0x655b59c3, 0x8f0ccc92, 0xffeff47d, 0x85845dd1,
   0x6fa87e4f, 0xfe2ce6e0, 0xa3014314, 0x4e0811a1,
   0xf7537e82, 0xbd3af235, 0x2ad7d2bb, 0xeb86d391]

/-- 32-bit left rotation. -/
def rotl32 (x c : Nat) : Nat := ((x <<< c) ||| (x >>> (32 - c))) % 4294967296

/-- Little-endian byte expansion, `w` bytes. -/
def leBytes (w n : Nat) : List Nat :=
  (List.range w).map (fun i => n >>> (8 * i) % 256)

/-- MD5 message padding of a byte list. -/
def md5_pad (msg : List Nat) : List Nat :=
  let bitLen := (msg.length * 8) % 18446744073709551616
  let k := (msg.length + 1) % 64
  let padLen := (56 + 64 - k) % 64
  msg ++ [0x80] ++ List.replicate padLen 0 ++ leBytes 8 bitLen

/-- Split a byte list into 64-byte chunks. -/
def chunks64 (l : List Nat) : List (List Nat) :=
  if h : l = [] then []
  else l.take 64 :: chunks64 (l.drop 64)
termination_by l.length
decreasing_by
  simp only [List.length_drop]
  exact Nat.sub_lt (List.length_pos.mpr h) (by norm_num)

/-- Little-endian 32-bit word `g` of a 64-byte chunk. -/
def md5_word (c : List Nat) (g : Nat) : Nat :=
  c.getD (4 * g) 0 + 256 * c.getD (4 * g + 1) 0 +
    65536 * c.getD (4 * g + 2) 0 + 16777216 * c.getD (4 * g + 3) 0

/-- One MD5 round `i` on state `(A, B, C, D)`. -/
def md5_round (c : List Nat) (st : Nat × Nat × Nat × Nat) (i : Nat) :
    Nat × Nat × Nat × Nat :=
  let A := st.1; let B := st.2.1; let C := st.2.2.1; let D := st.2.2.2
  let FG : Nat × Nat :=
    if i < 16 then ((B &&& C) ||| ((B ^^^ 0xffffffff) &&& D), i)
    else if i < 32 then ((D &&& B) ||| ((D ^^^ 0xffffffff) &&& C), (5 * i + 1) % 16)
    else if i < 48 then (B ^^^ C ^^^ D, (3 * i + 5) % 16)
    else (C ^^^ (B ||| (D ^^^ 0xffffffff)), (7 * i) % 16)
  let F := (FG.1 + A + md5_K.getD i 0 + md5_word c FG.2) % 4294967296
  (D, (B + rotl32 F (md5_s.getD i 0)) % 4294967296, B, C)

/-- Process one 64-byte chunk, updating the running digest state. -/
def md5_chunk (st : Nat × Nat × Nat × Nat) (c : List Nat) :
    Nat × Nat × Nat × Nat :=
  let r := (List.range 64).foldl (md5_round c) st
  ((st.1 + r.1) % 4294967296, (st.2.1 + r.2.1) % 4294967296,
   (st.2.2.1 + r.2.2.1) % 4294967296, (st.2.2.2 + r.2.2.2) % 4294967296)

/-- MD5 digest (16 bytes) of a byte list. -/
def md5_digest_bytes (msg : List Nat) : List Nat :=
  let st := (chunks64 (md5_pad msg)).foldl md5_chunk
    (0x67452301, 0xefcdab89, 0x98badcfe, 0x10325476)
  leBytes 4 st.1 ++ leBytes 4 st.2.1 ++ leBytes 4 st.2.2.1 ++ leBytes 4 st.2.2.2

/-- UTF-8 bytes of a string: models `category.encode()`. -/
def utf8Bytes (s : String) : List Nat := s.toUTF8.toList.map UInt8.toNat

/-- `hashlib.md5(s.encode()).hexdigest()`: 32 lowercase hex characters. -/
def md5_hexdigest (s : String) : String :=
  String.join ((md5_digest_bytes (utf8Bytes s)).map hex2)

/-! ### Color generation (`generate_category_colors` and helpers) -/

/-- matplotlib `hsv_to_rgb` on rationals (`h`, `s`, `v` in `[0,1]`);
the float arithmetic of the original is modelled exactly on `ℚ`. -/
def hsv_to_rgb (h s v : ℚ) : ℚ × ℚ × ℚ :=
  let i : ℤ := (h * 6).floor
  let f := h * 6 - (i : ℚ)
  let p := v * (1 - s)
  let q := v * (1 - s * f)
  let t := v * (1 - s * (1 - f))
  match (i % 6).toNat with
  | 0 => (v, t, p)
  | 1 => (q, v, p)
  | 2 => (p, v, t)
  | 3 => (p, q, v)
  | 4 => (t, p, v)
  | _ => (v, p, q)

/-- Python `int(x*255)` for `x` a rational in `[0,1)`. -/
def int255 (x : ℚ) : Nat := ((x * 255).floor).toNat

/-- The md5-derived color branch of `generate_category_colors`
(lines 86-103 of `generate_ranking.py`). -/
def hash_color (category : String) : String :=
  let hex := (md5_hexdigest category).data
  let h := (hexByteAt hex 0 : ℚ) / 255
  let s := 7/10 + ((hexByteAt hex 2 : ℚ) / 255) * (3/10)
  let v := 3/5 + ((hexByteAt hex 4 : ℚ) / 255) * (3/10)
  let rgb := hsv_to_rgb h s v
  "#" ++ hex2 (int255 rgb.1) ++ hex2 (int255 rgb.2.1) ++ hex2 (int255 rgb.2.2)

/-- `FALLBACK_COLORS`, in source order. -/
def FALLBACK_COLORS : List (String × String) :=
  [("Group A", "#FF7F0E"), ("Group B", "#1F77B4"), ("Group C", "#2CA02C"),
   ("Group D", "#9467BD"), ("Group E", "#D62728"), ("Group F", "#8C564B"),
   ("Group G", "#E377C2"), ("Group H", "#7F7F7F"), ("Group I", "#BCBD22"),
   ("Group J", "#17BECF"), ("Unknown", "#8C8C8C")]

/-- `base_colors`, the 20-entry high-contrast palette, in source order. -/
def base_colors : List String :=
  ["#1F77B4", "#FF7F0E", "#2CA02C", "#D62728", "#9467BD",
   "#8C564B", "#E377C2", "#7F7F7F", "#BCBD22", "#17BECF",
   "#AF7AA1", "#FE5F55", "#4B3B40", "#9CAFB7", "#566E3D",
   "#A5D8DD", "#E36588", "#7FB069", "#D8973C", "#965251"]

/-- `generate_category_colors(categories)`: starts from the fallback dict,
then for each category (with its enumerate index `i`) not already present,
assigns `base_colors[i]` when `i < 20` and an md5-derived color otherwise. -/
def generate_category_colors (categories : List String) : List (String × String) :=
  categories.enum.foldl
    (fun cd ic =>
      if (lookupLast cd ic.2).isSome then cd
      else if ic.1 < 20 then cd ++ [(ic.2, base_colors.getD ic.1 "")]
      else cd ++ [(ic.2, hash_color ic.2)])
    FALLBACK_COLORS

/-! ### Data model (the on-disk JSON shape, section 3 of the spec) -/

/-- A JSON number as read by Python: its textual form (for f-string
interpolation) together with its exact numeric value. -/
structure PyNum where
  txt : String
  val : ℚ
deriving DecidableEq, Repr

/-- The optional `value` field: either convertible by `float(...)`
(carrying the numeric value) or a non-numeric string (the `ValueError`
fallback branch keeps its text). -/
inductive JVal
  | num (n : PyNum)
  | nonFloatStr (s : String)
deriving DecidableEq, Repr

/-- One ranked-item record of the input JSON: a name, an integer rank, an
optional category label, and an optional percentage or value field. -/
structure Item where
  item : String
  rank : ℤ
  category : Option String
  percentage : Option PyNum
  value : Option JVal
deriving DecidableEq, Repr

/-- The whole input: a mapping from year label to its ranked-item list
(association list in JSON object order; keys are unique in a dict). -/
abbrev RankData := List (String × List Item)

/-- `get_rank_in_data(item_name, data)`: rank of the first record whose
`item` field matches, else `None`. -/
def get_rank_in_data (item_name : String) (data : List Item) : Option ℤ :=
  match data.find? (fun it => it.item = item_name) with
  | some it => some it.rank
  | none => none

/-! ### Drawing primitives: matplotlib calls as an explicit artist list -/

/-- One drawing call.  Decorative-only parameters that no claim concerns
(edge colors, font sizes, path effects) are not recorded. -/
inductive Artist
  | rect (x y w h : ℚ) (fc : String) (z : ℤ)
  | figtext (x y : ℚ) (s : String)
  | vline (x : ℚ)
  | hline (y : ℚ)
  | circle (x y r : ℚ) (color : String) (z : ℤ)
  | text (x y : ℚ) (s : String) (color : String) (z : ℤ)
  | segment (x1 y1 x2 y2 : ℚ) (color : ℚ × ℚ × ℚ) (alpha lw : ℚ) (z : ℤ)
deriving DecidableEq, Repr

/-- Entry `i` of the 100-entry lookup table built by
`LinearSegmentedColormap.from_list("custom_gradient", [c0, c1], N=100)`
(`create_color_gradient`): linear interpolation with fraction `i/99`. -/
def lutColor (c0 c1 : ℚ × ℚ × ℚ) (i : Nat) : ℚ × ℚ × ℚ :=
  let f : ℚ := (i : ℚ) / 99
  (c0.1 + f * (c1.1 - c0.1), c0.2.1 + f * (c1.2.1 - c0.2.1),
   c0.2.2 + f * (c1.2.2 - c0.2.2))

/-- `cmap(t)` for the two-color gradient: matplotlib quantizes `t ∈ [0,1]`
to LUT index `int(t*N)` clipped to `N-1`. -/
def cmapAt (c0 c1 : ℚ × ℚ × ℚ) (t : ℚ) : ℚ × ℚ × ℚ :=
  lutColor c0 c1 (min ((t * 100).floor).toNat 99)

/-- The cubic Bezier polynomial of `draw_flow_curve` (lines 145-151):
`(1-t)^3 P0 + 3(1-t)^2 t P1 + 3(1-t) t^2 P2 + t^3 P3`. -/
def bezier_point (p0 p1 p2 p3 : ℚ × ℚ) (t : ℚ) : ℚ × ℚ :=
  ((1-t)^3 * p0.1 + 3*(1-t)^2*t*p1.1 + 3*(1-t)*t^2*p2.1 + t^3*p3.1,
   (1-t)^3 * p0.2 + 3*(1-t)^2*t*p1.2 + 3*(1-t)*t^2*p2.2 + t^3*p3.2)

/-- `control_shift = min(x_dist * 0.4, 18)` (line 130). -/
def control_shift (x1 x2 : ℚ) : ℚ := min (|x2 - x1| * (2/5)) 18

/-- The 150 curve samples of `draw_flow_curve`: the Bezier polynomial at
`np.linspace(0, 1, 150)`, i.e. parameters `k/149` for `k = 0..149`. -/
def curve_points (x1 y1 x2 y2 : ℚ) : List (ℚ × ℚ) :=
  let cs := control_shift x1 x2
  (List.range 150).map (fun k : Nat =>
    bezier_point (x1, y1) (x1 + cs, y1) (x2 - cs, y2) (x2, y2) ((k : ℚ) / 149))

/-- Rank-change indicator text (lines 200-209): leading `+` when positive,
plain when negative, `"0"` when zero. -/
def rank_change_text (rc : ℤ) : String :=
  if 0 < rc then "+" ++ toString rc
  else if rc < 0 then toString rc
  else "0"

/-- Rank-change indicator text color (green / red / grey). -/
def rank_change_color (rc : ℤ) : String :=
  if 0 < rc then "#18840B" else if rc < 0 then "#B91D1D" else "#555555"

/-- `draw_flow_curve(ax, x1, y1, x2, y2, start_color, end_color, alpha,
width, rank_change)`: 149 gradient-colored segments between consecutive
curve samples, then (if `rank_change is not None`) a shadow, a white
indicator circle and the rank-change text at sample `len(curve)//2 = 75`. -/
def draw_flow_curve (x1 y1 x2 y2 : ℚ) (start_color end_color : String)
    (alpha width : ℚ) (rank_change : Option ℤ) : List Artist :=
  let curve := curve_points x1 y1 x2 y2
  let c0 := to_rgb start_color
  let c1 := to_rgb end_color
  let segs := (List.range 149).map (fun i =>
    Artist.segment (curve.getD i (0, 0)).1 (curve.getD i (0, 0)).2
      (curve.getD (i + 1) (0, 0)).1 (curve.getD (i + 1) (0, 0)).2
      (cmapAt c0 c1 ((i : ℚ) / 149)) alpha width 5)
  segs ++
    match rank_change with
    | none => []
    | some rc =>
      let mid := curve.getD 75 (0, 0)
      [Artist.circle (mid.1 + 3/10) (mid.2 - 3/10) 2 "#00000022" 9,
       Artist.circle mid.1 mid.2 2 "#FFFFFF" 10,
       Artist.text mid.1 mid.2 (rank_change_text rc) (rank_change_color rc) 11]

/-! ### `create_visualization`: value formatting and layout pipeline -/

/-- Round half to even, the tie-breaking CPython uses when formatting. -/
def roundHalfEven (q : ℚ) : ℤ :=
  let f := q.floor
  let r := q - (f : ℚ)
  if r < 1/2 then f else if 1/2 < r then f + 1 else if f % 2 = 0 then f else f + 1

/-- Python `f"{x:.2f}"` on an exact rational value. -/
def formatFixed2 (q : ℚ) : String :=
  let n := (roundHalfEven (|q| * 100)).toNat
  let sign := if q < 0 then "-" else ""
  let d := n % 100
  sign ++ toString (n / 100) ++ "." ++ (if d < 10 then "0" else "") ++ toString d

/-- The `value_text` computation (lines 368-377 / 414-423): percentage with
a `%` suffix, else `float(value)` formatted `.2f`, else the raw string. -/
def value_text (it : Item) : String :=
  match it.percentage with
  | some p => p.txt ++ "%"
  | none =>
    match it.value with
    | some (.num n) => formatFixed2 n.val
    | some (.nonFloatStr s) => s
    | none => ""

/-- Key list of the data dict (`data.keys()`; dict keys are unique). -/
def dictKeys (data : RankData) : List String := dedupFirst (data.map Prod.fst)

/-- `years = sorted(data.keys())` (line 255). -/
def sortedYears (data : RankData) : List String := sortStrings (dictKeys data)

/-- Lines 256-258: placeholder years when fewer than two are present. -/
def effectiveYears (data : RankData) : List String :=
  let ys := sortedYears data
  if ys.length < 2 then ["Previous Year", "Current Year"] else ys

/-- `prev_year = years[-2]` (line 261). -/
def prev_year (data : RankData) : String :=
  (effectiveYears data).getD ((effectiveYears data).length - 2) ""

/-- `curr_year = years[-1]` (line 262). -/
def curr_year (data : RankData) : String :=
  (effectiveYears data).getD ((effectiveYears data).length - 1) ""

/-- `data_prev_all = data.get(prev_year, [])` (line 291). -/
def data_prev_all (data : RankData) : List Item :=
  (lookupLast data (prev_year data)).getD []

/-- `data_curr_all = data.get(curr_year, [])` (line 292). -/
def data_curr_all (data : RankData) : List Item :=
  (lookupLast data (curr_year data)).getD []

/-- `max_entries` (lines 295-298): the override or 10, capped by the larger
of the two year list lengths. -/
def max_entries (dpa dca : List Item) (ov : Option ℤ) : ℤ :=
  match ov with
  | some o => min o (max (dpa.length : ℤ) (dca.length : ℤ))
  | none => min 10 (max (dpa.length : ℤ) (dca.length : ℤ))

/-- `data_prev = [item for item in data_prev_all if item['rank'] <= max_entries]`. -/
def data_prev (dpa dca : List Item) (ov : Option ℤ) : List Item :=
  dpa.filter (fun it => it.rank ≤ max_entries dpa dca ov)

/-- `data_curr`, same filter over the current year. -/
def data_curr (dpa dca : List Item) (ov : Option ℤ) : List Item :=
  dca.filter (fun it => it.rank ≤ max_entries dpa dca ov)

/-- `items_prev_top = set(item['item'] for item in data_prev)`. -/
def items_prev_top (dpa dca : List Item) (ov : Option ℤ) : List String :=
  dedupFirst ((data_prev dpa dca ov).map Item.item)

/-- `items_curr_top = set(item['item'] for item in data_curr)`. -/
def items_curr_top (dpa dca : List Item) (ov : Option ℤ) : List String :=
  dedupFirst ((data_curr dpa dca ov).map Item.item)

/-- `{item['item']: item.get('category', 'Unknown') for item in l}`:
dict comprehension in list order, later duplicates overwriting. -/
def item_category (l : List Item) : List (String × String) :=
  l.foldl (fun d it => insertDict d it.item (it.category.getD "Unknown")) []

/-- `d.values()` of an association-list dict. -/
def dictValues {α : Type} (d : List (String × α)) : List α := d.map Prod.snd

/-- `all_categories = set(prev.values()) | set(curr.values())` (line 315);
the embedding fixes first-occurrence iteration order for the set. -/
def all_categories (dpa dca : List Item) : List String :=
  dedupFirst (dictValues (item_category dpa) ++ dictValues (item_category dca))

/-- `CATEGORY_COLORS = generate_category_colors(all_categories)` (line 319). -/
def category_colors (dpa dca : List Item) : List (String × String) :=
  generate_category_colors (all_categories dpa dca)

/-- `CATEGORY_COLORS[cat]`.  Every category occurring in the data is a key
of the generated dict, so the `"#KEYERROR"` default never arises. -/
def colorOf (dpa dca : List Item) (cat : String) : String :=
  (lookupLast (category_colors dpa dca) cat).getD "#KEYERROR"

/-- Row `i` center height: `y_pos = top_y - i * spacing = 80 - 6 i`. -/
def rowY (i : Nat) : ℚ := 80 - (i : ℚ) * 6

/-- `positions[item['item']] = (col_x, y_pos)` accumulated over an
enumerated loop. -/
def positions_fold (x : ℚ) :
    Nat → List (String × (ℚ × ℚ)) → List Item → List (String × (ℚ × ℚ))
  | _, acc, [] => acc
  | i, acc, it :: rest => positions_fold x (i + 1) (insertDict acc it.item (x, rowY i)) rest

/-- `positions_prev` after the previous-year loop (left column, x = 25). -/
def positions_prev (dpa dca : List Item) (ov : Option ℤ) : List (String × (ℚ × ℚ)) :=
  positions_fold 25 0 [] (data_prev dpa dca ov)

/-- `positions_curr` after the current-year loop (right column, x = 75). -/
def positions_curr (dpa dca : List Item) (ov : Option ℤ) : List (String × (ℚ × ℚ)) :=
  positions_fold 75 0 [] (data_curr dpa dca ov)

/-- Artists of one ranking row (lines 340-383 / 386-429): shadow, colored
circle, centered rank number, item name, optional value text. -/
def draw_rank_item (dpa dca : List Item) (col_x : ℚ) (i : Nat) (it : Item) :
    List Artist :=
  let y := rowY i
  [Artist.circle (col_x + 3/20) (y - 3/20) (5/2) "#00000015" 2,
   Artist.circle col_x y (5/2) (colorOf dpa dca (it.category.getD "Unknown")) 3,
   Artist.text col_x y (toString it.rank) "white" 4,
   Artist.text (col_x + 5) y it.item "#232323" 4] ++
  (if value_text it = "" then []
   else [Artist.text (col_x + 5) (y - 3/2) (value_text it) "#5A5A5A" 4])

/-- New-entry artists (lines 431-468).  `if prev_rank:` is Python
truthiness: the small previous-rank circle branch runs only when the rank
is present and nonzero. -/
def new_entry_artists (dpa dca : List Item) (ov : Option ℤ) (i : Nat) (it : Item) :
    List Artist :=
  if it.item ∈ items_prev_top dpa dca ov then []
  else
    let y := rowY i
    match get_rank_in_data it.item dpa with
    | some r =>
      if r = 0 then [Artist.text 63 y "NEW" "#444444" 4]
      else
        [Artist.circle (63 + 3/20) (y - 3/20) (6/5) "#00000015" 2,
         Artist.circle 63 y (6/5) (colorOf dpa dca (it.category.getD "Unknown")) 3,
         Artist.text 63 y (toString r) "white" 4,
         Artist.text 56 y "NEW" "#444444" 4]
    | none => [Artist.text 63 y "NEW" "#444444" 4]

/-- An enumerated drawing loop: `for i, item in enumerate(l)` starting at
index `i`, concatenating each iteration's artists. -/
def column_artists (draw : Nat → Item → List Artist) :
    Nat → List Item → List Artist
  | _, [] => []
  | i, it :: rest => draw i it ++ column_artists draw (i + 1) rest

/-- All artists of the previous-year column loop. -/
def prev_column (dpa dca : List Item) (ov : Option ℤ) : List Artist :=
  column_artists (fun i it => draw_rank_item dpa dca 25 i it) 0 (data_prev dpa dca ov)

/-- All artists of the current-year column loop (row artists plus
new-entry artists per item). -/
def curr_column (dpa dca : List Item) (ov : Option ℤ) : List Artist :=
  column_artists
    (fun i it => draw_rank_item dpa dca 75 i it ++ new_entry_artists dpa dca ov i it)
    0 (data_curr dpa dca ov)

/-- Flow-line width (lines 488-503): derived from the item's percentage or
value in the full current-year data, defaulting to 1.5. -/
def width_for (name : String) (dca : List Item) : ℚ :=
  match dca.find? (fun d => d.item = name) with
  | none => 3/2
  | some it =>
    match it.percentage with
    | some p => max (3/5) (min (14/5) (p.val / 25 + 3/5))
    | none =>
      match it.value with
      | some (.num n) => max (3/5) (min (14/5) (n.val * (5/2) + 3/5))
      | some (.nonFloatStr _) => 3/2
      | none => 3/2

/-- `item_category_prev.get(item, 'Unknown')` (line 476). -/
def prev_category (dpa : List Item) (name : String) : String :=
  (lookupLast (item_category dpa) name).getD "Unknown"

/-- `item_category_curr.get(item, 'Unknown')` (line 477). -/
def curr_category (dca : List Item) (name : String) : String :=
  (lookupLast (item_category dca) name).getD "Unknown"

/-- Body of one iteration of the curve loop (lines 471-507) for an item
found in both position dicts, at previous position `p1` and current
position `p2`. -/
def curve_arts (dpa dca : List Item) (name : String) (p1 p2 : ℚ × ℚ) :
    List Artist :=
  let start_color := colorOf dpa dca (prev_category dpa name)
  let end_color := colorOf dpa dca (curr_category dca name)
  let rc : Option ℤ :=
    match get_rank_in_data name dpa, get_rank_in_data name dca with
    | some a, some b => some (a - b)
    | _, _ => none
  draw_flow_curve p1.1 p1.2 p2.1 p2.2 start_color end_color (13/20)
    (width_for name dca) rc

/-- The items that receive a flow curve, with their curve artists: the
entries of `positions_curr` whose name is also a key of `positions_prev`. -/
def drawn_curves (dpa dca : List Item) (ov : Option ℤ) :
    List (String × List Artist) :=
  (positions_curr dpa dca ov).filterMap (fun p =>
    match lookupLast (positions_prev dpa dca ov) p.1 with
    | some q => some (p.1, curve_arts dpa dca p.1 q p.2)
    | none => none)

/-- All artists of the curve loop, in iteration order. -/
def curves_phase (dpa dca : List Item) (ov : Option ℤ) : List Artist :=
  ((drawn_curves dpa dca ov).map Prod.snd).flatten

/-- Legend (lines 509-554): container, then per sorted active category a
shadow, a colored circle and the label, laid out in columns of
`min(4, max(1, n // 3 + 1))`. -/
def legend_phase (dpa dca : List Item) : List Artist :=
  let cats := sortStrings (all_categories dpa dca)
  let ipc := min 4 (max 1 (cats.length / 3 + 1))
  Artist.rect 5 1 90 12 "#FAFAFA" 1 ::
  (cats.enum.map (fun ic =>
    let cx : ℚ := 10 + ((ic.1 / ipc : Nat) : ℚ) * 30
    let cy : ℚ := 8 - ((ic.1 % ipc : Nat) : ℚ) * (27/10)
    [Artist.circle (cx + 1/10) (cy - 1/10) (3/2) "#00000015" 2,
     Artist.circle cx cy (3/2)
       ((lookupLast (category_colors dpa dca) ic.2).getD (colorOf dpa dca "Unknown")) 3,
     Artist.text (cx + 3) cy ic.2 "#333333" 4])).flatten

/-- `max_entries` as a loop bound (`range` of a negative int is empty). -/
def me_nat (dpa dca : List Item) (ov : Option ℤ) : Nat :=
  (max_entries dpa dca ov).toNat

/-- Alternating row backgrounds (lines 322-331), even rows only. -/
def row_backgrounds (me : Nat) : List Artist :=
  ((List.range me).filter (fun i => i % 2 = 0)).map (fun i =>
    Artist.rect 5 (rowY (i + 1) + 3) 90 6 "#F5F7F9" 0)

/-- Dotted separators (lines 334-337), `for i in range(1, max_entries)`. -/
def row_separators (me : Nat) : List Artist :=
  ((List.range me).drop 1).map (fun i => Artist.hline (rowY i + 3))

/-- Background, container, title, subtitle (default: comparison of the two
years), column divider, year labels (lines 232-288). -/
def header_artists (py cy : String) (title : String) (subtitle : Option String) :
    List Artist :=
  [Artist.rect 0 0 100 100 "#F8F9FA" (-10),
   Artist.rect 5 15 90 75 "#ffffff" (-5),
   Artist.figtext (1/20) (19/20) title,
   Artist.figtext (1/20) (91/100)
     (match subtitle with
      | some s => s
      | none => "Comparison of rankings between " ++ py ++ " and " ++ cy),
   Artist.vline 50,
   Artist.text 25 86 py "#232323" 3,
   Artist.text 75 86 cy "#232323" 3]

/-- The full artist list of one rendering pass, given the two year labels
and the two full year lists.  After line 262 the source reads the input
only through `prev_year`, `curr_year`, `data_prev_all`, `data_curr_all`. -/
def cv_core (py cy : String) (dpa dca : List Item) (title : String)
    (subtitle : Option String) (ov : Option ℤ) : List Artist :=
  header_artists py cy title subtitle ++
  row_backgrounds (me_nat dpa dca ov) ++
  row_separators (me_nat dpa dca ov) ++
  prev_column dpa dca ov ++
  curr_column dpa dca ov ++
  curves_phase dpa dca ov ++
  legend_phase dpa dca

/-- Artist list of `create_visualization` on the raw input mapping. -/
def cv_artists (data : RankData) (title : String) (subtitle : Option String)
    (ov : Option ℤ) : List Artist :=
  cv_core (prev_year data) (curr_year data) (data_prev_all data)
    (data_curr_all data) title subtitle ov

/-! ### `create_visualization` with the input mapping threaded as state -/

/-- Result of one `create_visualization` call: the emitted artists, the
save target, the printed lines, and the state of the input mapping when
the function returns. -/
structure RenderResult where
  artists : List Artist
  savedTo : String
  printed : List String
  dataAfter : RankData
deriving DecidableEq, Repr

/-- An enumerated loop threading the (mutable in Python) input mapping:
each iteration only draws, so it leaves the first component alone. -/
def loop_emit (draw : Nat → Item → List Artist) :
    Nat → RankData × List Artist → List Item → RankData × List Artist
  | _, st, [] => st
  | i, st, it :: rest => loop_emit draw (i + 1) (st.1, st.2 ++ draw i it) rest

/-- The curve loop over `positions_curr.items()`, likewise threading the
input mapping. -/
def loop_emit_curves (f : String × (ℚ × ℚ) → List Artist) :
    RankData × List Artist → List (String × (ℚ × ℚ)) → RankData × List Artist
  | st, [] => st
  | st, p :: rest => loop_emit_curves f (st.1, st.2 ++ f p) rest

/-- `create_visualization(data, output_file, title, subtitle,
max_entries_override)`, lines 228-559. -/
def create_visualization (data : RankData) (output_file title : String)
    (subtitle : Option String) (ov : Option ℤ) : RenderResult :=
  let py := prev_year data
  let cy := curr_year data
  let dpa := data_prev_all data
  let dca := data_curr_all data
  let st0 : RankData × List Artist :=
    (data, header_artists py cy title subtitle ++
      row_backgrounds (me_nat dpa dca ov) ++ row_separators (me_nat dpa dca ov))
  let st1 := loop_emit (fun i it => draw_rank_item dpa dca 25 i it) 0 st0
    (data_prev dpa dca ov)
  let st2 := loop_emit
    (fun i it => draw_rank_item dpa dca 75 i it ++ new_entry_artists dpa dca ov i it)
    0 st1 (data_curr dpa dca ov)
  let st3 := loop_emit_curves
    (fun p =>
      match lookupLast (positions_prev dpa dca ov) p.1 with
      | some q => curve_arts dpa dca p.1 q p.2
      | none => [])
    st2 (positions_curr dpa dca ov)
  { artists := st3.2 ++ legend_phase dpa dca
    savedTo := output_file
    printed :=
      (if (sortedYears data).length < 2 then
        ["Warning: Data must contain at least two years. Using placeholder years."]
       else []) ++
      ["Version 2.0 visualization saved to " ++ output_file]
    dataAfter := st3.1 }

/-! ### `load_data_from_json` and `main` -/

/-- What reading a path yields: no file, a file that is not valid JSON, or
a parsed mapping.  This models `open` plus `json.load` over an abstract
file system. -/
inductive FileContent
  | missing
  | invalidJson
  | valid (d : RankData)

/-- The argparse namespace of `main` (defaults as in lines 567-577). -/
structure Args where
  output : String := "ranking_v2.png"
  title : String := "Top 10 Ranked Items"
  subtitle : Option String := none
  dataPath : String := "sample_data.json"
  maxEntries : Option ℤ := none

/-- `load_data_from_json(json_file)`: reads and parses the file, i.e.
looks the path up in the abstract file system. -/
def load_data_from_json (fs : String → FileContent) (p : String) : FileContent :=
  fs p

/-- How a `main` call ends: an early `return` after printing error lines,
or a rendered visualization. -/
inductive MainResult
  | errorReturn (msgs : List String)
  | rendered (r : RenderResult)

/-- `main()`, lines 566-602: catch `FileNotFoundError` and
`json.JSONDecodeError` around `load_data_from_json`, print an error and
return; on success call `create_visualization`. -/
def main_py (fs : String → FileContent) (args : Args) : MainResult :=
  match load_data_from_json fs args.dataPath with
  | .missing =>
    .errorReturn ["Error: Data file '" ++ args.dataPath ++ "' not found."]
  | .invalidJson =>
    .errorReturn ["Error: '" ++ args.dataPath ++ "' is not a valid JSON file."]
  | .valid d =>
    .rendered (create_visualization d args.output args.title args.subtitle args.maxEntries)

/-! ### Helper definitions and lemmas for the claim theorems -/

/-- The strings of all text-like artists, in drawing order. -/
def texts_of (l : List Artist) : List String :=
  l.filterMap (fun a =>
    match a with
    | .text _ _ s _ _ => some s
    | .figtext _ _ s => some s
    | _ => none)

/-- A record with only name, rank and category set. -/
def mk_item (n : String) (r : ℤ) (c : String) : Item :=
  { item := n, rank := r, category := some c, percentage := none, value := none }

theorem loop_emit_fst (draw : Nat → Item → List Artist) (l : List Item) :
    ∀ (i : Nat) (st : RankData × List Artist), (loop_emit draw i st l).1 = st.1 := by
  induction l with
  | nil => intro i st; rfl
  | cons it rest ih => intro i st; exact ih (i + 1) _

theorem loop_emit_curves_fst (f : String × (ℚ × ℚ) → List Artist)
    (l : List (String × (ℚ × ℚ))) :
    ∀ st : RankData × List Artist, (loop_emit_curves f st l).1 = st.1 := by
  induction l with
  | nil => intro st; rfl
  | cons p rest ih => intro st; exact ih _

theorem loop_emit_snd (draw : Nat → Item → List Artist) (l : List Item) :
    ∀ (i : Nat) (st : RankData × List Artist),
      (loop_emit draw i st l).2 = st.2 ++ column_artists draw i l := by
  induction l with
  | nil => intro i st; simp [loop_emit, column_artists]
  | cons it rest ih =>
    intro i st
    simp [loop_emit, column_artists, ih (i + 1), List.append_assoc]

theorem loop_emit_curves_snd (f : String × (ℚ × ℚ) → List Artist)
    (l : List (String × (ℚ × ℚ))) :
    ∀ st : RankData × List Artist,
      (loop_emit_curves f st l).2 = st.2 ++ (l.map f).flatten := by
  induction l with
  | nil => intro st; simp [loop_emit_curves]
  | cons p rest ih =>
    intro st
    simp [loop_emit_curves, ih, List.append_assoc]

theorem curves_map_flatten_eq (dpa dca : List Item) (ov : Option ℤ) :
    ∀ l : List (String × (ℚ × ℚ)),
      ((l.map (fun p =>
          match lookupLast (positions_prev dpa dca ov) p.1 with
          | some q => curve_arts dpa dca p.1 q p.2
          | none => [])).flatten) =
      ((l.filterMap (fun p =>
          match lookupLast (positions_prev dpa dca ov) p.1 with
          | some q => some (p.1, curve_arts dpa dca p.1 q p.2)
          | none => none)).map Prod.snd).flatten := by
  intro l
  induction l with
  | nil => rfl
  | cons p rest ih =>
    cases h : lookupLast (positions_prev dpa dca ov) p.1 <;>
      simp [h, ih]

/-- The artists emitted by `create_visualization` are exactly `cv_artists`. -/
theorem create_visualization_artists (data : RankData) (o t : String)
    (s : Option String) (ov : Option ℤ) :
    (create_visualization data o t s ov).artists = cv_artists data t s ov := by
  simp only [create_visualization, cv_artists, cv_core, loop_emit_snd,
    loop_emit_curves_snd, loop_emit_fst, loop_emit_curves_fst,
    curves_map_flatten_eq, curves_phase, drawn_curves, prev_column, curr_column,
    List.append_assoc]

/-- C1 example: the same two category labels presented in the two orders. -/
def catsAB : List String := ["CatA", "CatB"]

/-- C1 example, reversed presentation order. -/
def catsBA : List String := ["CatB", "CatA"]

/-- C1: the claim says `generate_category_colors` assigns colors
independently of the iteration order in which the categories are
presented.  It does not: a category's palette color is chosen by its
enumeration index, so presenting the same set in a different order
assigns `CatA` a different color.  This contradicts the function's own
docstring ("will always produce the same color for the same category
name") and the comment on the hash branch, since the caller passes a
Python `set`, whose iteration order varies between runs. -/
theorem C1_color_order_dependence :
    lookupLast (generate_category_colors catsAB) "CatA" = some "#1F77B4" ∧
    lookupLast (generate_category_colors catsBA) "CatA" = some "#FF7F0E" ∧
    ("#1F77B4" : String) ≠ "#FF7F0E" := by
  exact ⟨by decide, by decide, by decide⟩

/-- C3 example: `Alpha` is ranked first in 2021 and absent from 2022, so
it is a dropped entry; `Beta` replaces it. -/
def exDrop : RankData :=
  [("2021", [mk_item "Alpha" 1 "X"]), ("2022", [mk_item "Beta" 1 "Y"])]

/-- C3: the claim says dropped entries are annotated.  No code path marks
a dropped item: on this input `Alpha` is in the previous year's rendered
top list and not in the current year's, yet the complete inventory of
text artists of the rendering contains only the title, subtitle, year
labels, the two rank/name pairs, the `NEW` tag for `Beta` and the legend
labels — nothing marking `Alpha` as dropped, and no other artist kind
refers to an item by name.  This contradicts the module docstring
("Version 2.0 with integrated flow lines for dropped items"). -/
theorem C3_dropped_entry_not_marked :
    (data_prev (data_prev_all exDrop) (data_curr_all exDrop) none).map Item.item
      = ["Alpha"] ∧
    (data_curr (data_prev_all exDrop) (data_curr_all exDrop) none).map Item.item
      = ["Beta"] ∧
    texts_of (cv_artists exDrop "T" (some "S") none) =
      ["T", "S", "2021", "2022", "1", "Alpha", "1", "Beta", "NEW", "X", "Y"] := by
  exact ⟨by decide, by decide, by decide⟩

/-- C9: `create_visualization` never mutates the input mapping: threading
the mapping through every drawing loop, the state it holds on return is
the input, unchanged. -/
theorem C9_data_never_mutated (data : RankData) (o t : String)
    (s : Option String) (ov : Option ℤ) :
    (create_visualization data o t s ov).dataAfter = data := by
  simp [create_visualization, loop_emit_curves_fst, loop_emit_fst]

/-- Linear interpolation between two points. -/
def lerp2 (a b : ℚ × ℚ) (t : ℚ) : ℚ × ℚ :=
  ((1 - t) * a.1 + t * b.1, (1 - t) * a.2 + t * b.2)

/-- De Casteljau evaluation of a cubic Bezier by repeated interpolation
(independent specification of the cubic Bezier polynomial). -/
def deCasteljau (p0 p1 p2 p3 : ℚ × ℚ) (t : ℚ) : ℚ × ℚ :=
  lerp2 (lerp2 (lerp2 p0 p1 t) (lerp2 p1 p2 t) t)
        (lerp2 (lerp2 p1 p2 t) (lerp2 p2 p3 t) t) t

theorem curve_points_get (x1 y1 x2 y2 : ℚ) (k : Nat) (hk : k < 150) :
    (curve_points x1 y1 x2 y2)[k]? =
      some (bezier_point (x1, y1) (x1 + control_shift x1 x2, y1)
        (x2 - control_shift x1 x2, y2) (x2, y2) ((k : ℚ) / 149)) := by
  simp only [curve_points]
  rw [List.getElem?_map, List.getElem?_range hk]
  rfl

theorem bezier_point_zero (p0 p1 p2 p3 : ℚ × ℚ) :
    bezier_point p0 p1 p2 p3 0 = p0 := by
  obtain ⟨a, b⟩ := p0
  simp only [bezier_point, Prod.mk.injEq]
  constructor <;> ring

theorem bezier_point_one (p0 p1 p2 p3 : ℚ × ℚ) :
    bezier_point p0 p1 p2 p3 1 = p3 := by
  obtain ⟨a, b⟩ := p3
  simp only [bezier_point, Prod.mk.injEq]
  constructor <;> ring

theorem bezier_eq_deCasteljau (p0 p1 p2 p3 : ℚ × ℚ) (t : ℚ) :
    bezier_point p0 p1 p2 p3 t = deCasteljau p0 p1 p2 p3 t := by
  simp only [bezier_point, deCasteljau, lerp2, Prod.mk.injEq]
  constructor <;> ring

/-- C7: the 150 points sampled by `draw_flow_curve` are the cubic Bezier
polynomial `(1-t)^3 P0 + 3(1-t)^2 t P1 + 3(1-t) t^2 P2 + t^3 P3` at the
uniform parameters `t = k/149`, with `P0 = (x1,y1)`, `P3 = (x2,y2)`,
`P1 = (x1+c, y1)`, `P2 = (x2-c, y2)`, `c = min(0.4*|x2-x1|, 18)` (the
polynomial agreeing with De Casteljau evaluation), and the first and last
samples are exactly the two endpoints. -/
theorem C7_cubic_bezier_sampling (x1 y1 x2 y2 : ℚ) (k : Nat) (hk : k < 150) :
    (curve_points x1 y1 x2 y2).length = 150 ∧
    (curve_points x1 y1 x2 y2)[k]? =
      some (bezier_point (x1, y1) (x1 + min (|x2 - x1| * (2/5)) 18, y1)
        (x2 - min (|x2 - x1| * (2/5)) 18, y2) (x2, y2) ((k : ℚ) / 149)) ∧
    bezier_point (x1, y1) (x1 + min (|x2 - x1| * (2/5)) 18, y1)
        (x2 - min (|x2 - x1| * (2/5)) 18, y2) (x2, y2) ((k : ℚ) / 149) =
      deCasteljau (x1, y1) (x1 + min (|x2 - x1| * (2/5)) 18, y1)
        (x2 - min (|x2 - x1| * (2/5)) 18, y2) (x2, y2) ((k : ℚ) / 149) ∧
    (curve_points x1 y1 x2 y2)[0]? = some (x1, y1) ∧
    (curve_points x1 y1 x2 y2)[149]? = some (x2, y2) := by
  have hcs : control_shift x1 x2 = min (|x2 - x1| * (2/5)) 18 := rfl
  refine ⟨?_, ?_, bezier_eq_deCasteljau _ _ _ _ _, ?_, ?_⟩
  · simp only [curve_points, List.length_map, List.length_range]
  · rw [curve_points_get x1 y1 x2 y2 k hk, hcs]
  · rw [curve_points_get x1 y1 x2 y2 0 (by norm_num)]
    norm_num [bezier_point_zero]
  · rw [curve_points_get x1 y1 x2 y2 149 (by norm_num)]
    have h1 : ((149 : Nat) : ℚ) / 149 = 1 := by norm_num
    rw [h1, bezier_point_one]

/-- C7 witness: the Bezier sampling property at a concrete curve and
sample index. -/
theorem C7_cubic_bezier_sampling_witness :
    (5 : Nat) < 150 ∧
    ((curve_points 25 80 75 74).length = 150 ∧
     (curve_points 25 80 75 74)[5]? =
       some (bezier_point (25, 80) (25 + min (|(75 : ℚ) - 25| * (2/5)) 18, 80)
         (75 - min (|(75 : ℚ) - 25| * (2/5)) 18, 74) (75, 74) ((5 : ℚ) / 149)) ∧
     bezier_point (25, 80) (25 + min (|(75 : ℚ) - 25| * (2/5)) 18, 80)
         (75 - min (|(75 : ℚ) - 25| * (2/5)) 18, 74) (75, 74) ((5 : ℚ) / 149) =
       deCasteljau (25, 80) (25 + min (|(75 : ℚ) - 25| * (2/5)) 18, 80)
         (75 - min (|(75 : ℚ) - 25| * (2/5)) 18, 74) (75, 74) ((5 : ℚ) / 149) ∧
     (curve_points 25 80 75 74)[0]? = some (25, 80) ∧
     (curve_points 25 80 75 74)[149]? = some (75, 74)) :=
  ⟨by norm_num, C7_cubic_bezier_sampling 25 80 75 74 5 (by norm_num)⟩

/-- C8: `main` catches a missing data file and invalid JSON, printing an
error and returning normally without rendering; on a valid file it
proceeds to render via `create_visualization`. -/
theorem C8_file_and_json_errors_caught (fs : String → FileContent) (args : Args) :
    (fs args.dataPath = .missing →
      main_py fs args =
        .errorReturn ["Error: Data file '" ++ args.dataPath ++ "' not found."]) ∧
    (fs args.dataPath = .invalidJson →
      main_py fs args =
        .errorReturn ["Error: '" ++ args.dataPath ++ "' is not a valid JSON file."]) ∧
    (∀ d : RankData, fs args.dataPath = .valid d →
      main_py fs args =
        .rendered (create_visualization d args.output args.title args.subtitle
          args.maxEntries)) := by
  refine ⟨fun h => ?_, fun h => ?_, fun d h => ?_⟩ <;>
    simp [main_py, load_data_from_json, h]

/-- C8 witness: a file system with no files makes `main` return the
file-not-found error for the default data path. -/
theorem C8_file_and_json_errors_caught_witness :
    main_py (fun _ => FileContent.missing) {} =
      MainResult.errorReturn ["Error: Data file 'sample_data.json' not found."] :=
  (C8_file_and_json_errors_caught (fun _ => FileContent.missing) {}).1 rfl

/-- C10: with fewer than two year keys, `create_visualization` runs to
completion, prints the warning, uses the placeholder year labels, and —
when the input does not literally contain those placeholder keys — both
columns, and hence the single actual year's data, are rendered empty. -/
theorem C10_single_year_renders_empty (data : RankData) (o t : String)
    (s : Option String) (ov : Option ℤ)
    (hlt : (sortedYears data).length < 2)
    (hp : lookupLast data "Previous Year" = none)
    (hc : lookupLast data "Current Year" = none) :
    prev_year data = "Previous Year" ∧
    curr_year data = "Current Year" ∧
    data_prev_all data = [] ∧
    data_curr_all data = [] ∧
    prev_column (data_prev_all data) (data_curr_all data) ov = [] ∧
    curr_column (data_prev_all data) (data_curr_all data) ov = [] ∧
    curves_phase (data_prev_all data) (data_curr_all data) ov = [] ∧
    Artist.text 25 86 "Previous Year" "#232323" 3 ∈ cv_artists data t s ov ∧
    Artist.text 75 86 "Current Year" "#232323" 3 ∈ cv_artists data t s ov ∧
    "Warning: Data must contain at least two years. Using placeholder years."
      ∈ (create_visualization data o t s ov).printed := by
  have hey : effectiveYears data = ["Previous Year", "Current Year"] := by
    simp [effectiveYears, hlt]
  have hpy : prev_year data = "Previous Year" := by simp [prev_year, hey]
  have hcy : curr_year data = "Current Year" := by simp [curr_year, hey]
  have hdpa : data_prev_all data = [] := by simp [data_prev_all, hpy, hp]
  have hdca : data_curr_all data = [] := by simp [data_curr_all, hcy, hc]
  refine ⟨hpy, hcy, hdpa, hdca, ?_, ?_, ?_, ?_, ?_, ?_⟩
  · rw [hdpa, hdca]; rfl
  · rw [hdpa, hdca]; rfl
  · rw [hdpa, hdca]; rfl
  · simp [cv_artists, cv_core, header_artists, hpy]
  · simp [cv_artists, cv_core, header_artists, hcy]
  · simp [create_visualization, hlt]

/-- C10 example: one single actual year. -/
def exSingle : RankData := [("2022", [mk_item "Solo" 1 "X"])]

/-- C10 witness: the single-year behavior at a concrete one-year input. -/
theorem C10_single_year_renders_empty_witness :
    ((sortedYears exSingle).length < 2 ∧
     lookupLast exSingle "Previous Year" = none ∧
     lookupLast exSingle "Current Year" = none) ∧
    (prev_year exSingle = "Previous Year" ∧
     curr_year exSingle = "Current Year" ∧
     data_prev_all exSingle = [] ∧
     data_curr_all exSingle = [] ∧
     prev_column (data_prev_all exSingle) (data_curr_all exSingle) none = [] ∧
     curr_column (data_prev_all exSingle) (data_curr_all exSingle) none = [] ∧
     curves_phase (data_prev_all exSingle) (data_curr_all exSingle) none = [] ∧
     Artist.text 25 86 "Previous Year" "#232323" 3 ∈ cv_artists exSingle "T" none none ∧
     Artist.text 75 86 "Current Year" "#232323" 3 ∈ cv_artists exSingle "T" none none ∧
     "Warning: Data must contain at least two years. Using placeholder years."
       ∈ (create_visualization exSingle "out.png" "T" none none).printed) :=
  ⟨⟨by decide, by decide, by decide⟩,
   C10_single_year_renders_empty exSingle "out.png" "T" none none
     (by decide) (by decide) (by decide)⟩

/-! ### Order and dedup lemmas used by the year-selection claims -/

theorem strLeB_total : ∀ as bs : List Char,
    strLeB as bs = true ∨ strLeB bs as = true := by
  intro as
  induction as with
  | nil => intro bs; left; rfl
  | cons a as ih =>
    intro bs
    cases bs with
    | nil => right; rfl
    | cons b bs =>
      simp only [strLeB]
      rcases Nat.lt_trichotomy a.toNat b.toNat with h1 | h1 | h1
      · left; simp [h1]
      · have hn1 : ¬ a.toNat < b.toNat := by omega
        have hn2 : ¬ b.toNat < a.toNat := by omega
        simpa [hn1, hn2] using ih bs
      · right; simp [h1]

theorem strLeB_trans : ∀ as bs cs : List Char,
    strLeB as bs = true → strLeB bs cs = true → strLeB as cs = true := by
  intro as
  induction as with
  | nil => intro bs cs _ _; rfl
  | cons a as ih =>
    intro bs cs hab hbc
    cases bs with
    | nil => simp [strLeB] at hab
    | cons b bs =>
      cases cs with
      | nil => simp [strLeB] at hbc
      | cons c cs =>
        simp only [strLeB] at hab hbc ⊢
        rcases Nat.lt_trichotomy a.toNat b.toNat with h1 | h1 | h1
        · rcases Nat.lt_trichotomy b.toNat c.toNat with h2 | h2 | h2
          · simp [show a.toNat < c.toNat by omega]
          · simp [show a.toNat < c.toNat by omega]
          · rw [if_neg (by omega), if_pos h2] at hbc; simp at hbc
        · rw [if_neg (by omega), if_neg (by omega)] at hab
          rcases Nat.lt_trichotomy b.toNat c.toNat with h2 | h2 | h2
          · simp [show a.toNat < c.toNat by omega]
          · rw [if_neg (by omega), if_neg (by omega)] at hbc
            rw [if_neg (by omega), if_neg (by omega)]
            exact ih bs cs hab hbc
          · rw [if_neg (by omega), if_pos h2] at hbc; simp at hbc
        · rw [if_neg (by omega), if_pos h1] at hab; simp at hab

instance pyStrLe_isTotal : IsTotal String (fun a b => pyStrLe a b = true) :=
  ⟨fun a b => strLeB_total a.data b.data⟩

instance pyStrLe_isTrans : IsTrans String (fun a b => pyStrLe a b = true) :=
  ⟨fun a b c => strLeB_trans a.data b.data c.data⟩

theorem mem_dedupFirstAux (l : List String) :
    ∀ (seen : List String) (x : String),
      x ∈ dedupFirstAux seen l ↔ x ∈ l ∧ x ∉ seen := by
  induction l with
  | nil => intro seen x; simp [dedupFirstAux]
  | cons a rest ih =>
    intro seen x
    by_cases ha : a ∈ seen
    · rw [dedupFirstAux, if_pos ha, ih]
      constructor
      · rintro ⟨hx, hs⟩; exact ⟨List.mem_cons_of_mem _ hx, hs⟩
      · rintro ⟨hx, hs⟩
        rcases List.mem_cons.mp hx with rfl | hx
        · exact absurd ha hs
        · exact ⟨hx, hs⟩
    · rw [dedupFirstAux, if_neg ha]
      constructor
      · intro hx
        rcases List.mem_cons.mp hx with rfl | hx
        · exact ⟨List.mem_cons_self _ _, ha⟩
        · obtain ⟨h1, h2⟩ := (ih _ x).mp hx
          refine ⟨List.mem_cons_of_mem _ h1, fun hs => h2 (List.mem_cons_of_mem _ hs)⟩
      · rintro ⟨hx, hs⟩
        rcases List.mem_cons.mp hx with rfl | hx
        · exact List.mem_cons_self _ _
        · by_cases hxa : x = a
          · subst hxa; exact List.mem_cons_self _ _
          · refine List.mem_cons_of_mem _ ((ih _ x).mpr ⟨hx, fun h => ?_⟩)
            rcases List.mem_cons.mp h with h | h
            · exact hxa h
            · exact hs h

theorem mem_dedupFirst (l : List String) (x : String) :
    x ∈ dedupFirst l ↔ x ∈ l := by
  simp [dedupFirst, mem_dedupFirstAux]

theorem nodup_dedupFirstAux (l : List String) :
    ∀ seen, (dedupFirstAux seen l).Nodup := by
  induction l with
  | nil => intro seen; simp [dedupFirstAux]
  | cons a rest ih =>
    intro seen
    by_cases ha : a ∈ seen
    · simpa [dedupFirstAux, ha] using ih seen
    · simp only [dedupFirstAux, if_neg ha, List.nodup_cons]
      refine ⟨fun hmem => ?_, ih _⟩
      exact ((mem_dedupFirstAux rest _ a).mp hmem).2 (List.mem_cons_self _ _)

theorem nodup_dedupFirst (l : List String) : (dedupFirst l).Nodup :=
  nodup_dedupFirstAux l []

theorem sortStrings_perm (l : List String) : List.Perm (sortStrings l) l :=
  List.perm_insertionSort _ l

theorem sortStrings_sorted (l : List String) :
    List.Sorted (fun a b => pyStrLe a b = true) (sortStrings l) :=
  List.sorted_insertionSort _ l

theorem sortedYears_nodup (data : RankData) : (sortedYears data).Nodup :=
  (List.Perm.nodup_iff (sortStrings_perm _)).mpr (nodup_dedupFirst _)

theorem sorted_nodup_last_two (ys : List String)
    (hs : List.Sorted (fun a b => pyStrLe a b = true) ys) (hn : ys.Nodup)
    (h2 : 2 ≤ ys.length) :
    pyStrLe (ys.getD (ys.length - 2) "") (ys.getD (ys.length - 1) "") = true ∧
    ys.getD (ys.length - 2) "" ≠ ys.getD (ys.length - 1) "" := by
  have hi : ys.length - 2 < ys.length := by omega
  have hj : ys.length - 1 < ys.length := by omega
  have hij : (⟨ys.length - 2, hi⟩ : Fin ys.length) < ⟨ys.length - 1, hj⟩ := by
    simp only [Fin.mk_lt_mk]; omega
  have hgd1 : ys.getD (ys.length - 2) "" = ys.get ⟨ys.length - 2, hi⟩ := by
    rw [List.getD_eq_getElem?_getD, List.getElem?_eq_getElem hi]
    rfl
  have hgd2 : ys.getD (ys.length - 1) "" = ys.get ⟨ys.length - 1, hj⟩ := by
    rw [List.getD_eq_getElem?_getD, List.getElem?_eq_getElem hj]
    rfl
  rw [hgd1, hgd2]
  refine ⟨List.Sorted.rel_get_of_lt hs hij, fun heq => ?_⟩
  have := (List.Nodup.get_inj_iff hn).mp heq
  rw [Fin.mk.injEq] at this
  omega

/-- C2 counterexample input: three year keys, each with one top-ranked
item; `Alpha` is the top item of the earliest year, 2020. -/
def exThreeYears : RankData :=
  [("2020", [mk_item "Alpha" 1 "X"]), ("2021", [mk_item "Beta" 1 "Y"]),
   ("2022", [mk_item "Gamma" 1 "Z"])]

/-- C2 counterexample: the claim says every year key's top-N ranking is
drawn.  With three years, 2020 is a year key whose top item `Alpha` names
no text artist of the rendering at all (and only text artists carry item
names), so 2020's ranking is not drawn. -/
theorem C2_counterexample_year_not_drawn :
    "2020" ∈ dictKeys exThreeYears ∧
    lookupLast exThreeYears "2020" = some [mk_item "Alpha" 1 "X"] ∧
    "Alpha" ∉ texts_of (cv_artists exThreeYears "T" none none) := by
  exact ⟨by decide, by decide, by decide⟩

theorem prev_year_eq_getD (data : RankData)
    (h2 : 2 ≤ (sortedYears data).length) :
    prev_year data = (sortedYears data).getD ((sortedYears data).length - 2) "" := by
  have : ¬ (sortedYears data).length < 2 := by omega
  simp [prev_year, effectiveYears, this]

theorem curr_year_eq_getD (data : RankData)
    (h2 : 2 ≤ (sortedYears data).length) :
    curr_year data = (sortedYears data).getD ((sortedYears data).length - 1) "" := by
  have : ¬ (sortedYears data).length < 2 := by omega
  simp [curr_year, effectiveYears, this]

theorem sortStrings_pair (a b : String) (hle : pyStrLe a b = true) :
    sortStrings [a, b] = [a, b] := by
  simp [sortStrings, List.insertionSort, List.orderedInsert, hle]

/-- C2 (amended): only the last two year keys in ascending (code-point)
order are rendered.  The whole artist output is unchanged when the input
is replaced by the mapping holding just those two years, so years before
the last two are not drawn; and the two rendered years are `years[-2]`
and `years[-1]` of the sorted key list. -/
theorem C2_amended_only_last_two_years (data : RankData) (t : String)
    (s : Option String) (ov : Option ℤ)
    (h2 : 2 ≤ (sortedYears data).length) :
    cv_artists data t s ov =
      cv_artists [(prev_year data, data_prev_all data),
                  (curr_year data, data_curr_all data)] t s ov ∧
    prev_year data = (sortedYears data).getD ((sortedYears data).length - 2) "" ∧
    curr_year data = (sortedYears data).getD ((sortedYears data).length - 1) "" := by
  have hpy := prev_year_eq_getD data h2
  have hcy := curr_year_eq_getD data h2
  obtain ⟨hrel, hne⟩ := sorted_nodup_last_two (sortedYears data)
    (sortStrings_sorted _) (sortedYears_nodup data) h2
  rw [← hpy, ← hcy] at hrel hne
  refine ⟨?_, hpy, hcy⟩
  set py := prev_year data with hpydef
  set cy := curr_year data with hcydef
  set A := data_prev_all data with hAdef
  set B := data_curr_all data with hBdef
  have hne' : cy ≠ py := Ne.symm hne
  have hkeys : dictKeys [(py, A), (cy, B)] = [py, cy] := by
    simp [dictKeys, dedupFirst, dedupFirstAux, hne']
  have hsy : sortedYears [(py, A), (cy, B)] = [py, cy] := by
    rw [sortedYears, hkeys, sortStrings_pair py cy hrel]
  have hey : effectiveYears [(py, A), (cy, B)] = [py, cy] := by
    simp [effectiveYears, hsy]
  have hpy' : prev_year [(py, A), (cy, B)] = py := by
    simp [prev_year, hey]
  have hcy' : curr_year [(py, A), (cy, B)] = cy := by
    simp [curr_year, hey]
  have hlpA : lookupLast [(py, A), (cy, B)] py = some A := by
    simp [lookupLast, hne']
  have hlpB : lookupLast [(py, A), (cy, B)] cy = some B := by
    simp [lookupLast]
  have hA' : data_prev_all [(py, A), (cy, B)] = A := by
    rw [data_prev_all, hpy', hlpA]; rfl
  have hB' : data_curr_all [(py, A), (cy, B)] = B := by
    rw [data_curr_all, hcy', hlpB]; rfl
  rw [cv_artists, cv_artists, hpy', hcy', hA', hB']

/-- C2 witness for the amended theorem, at the three-year example. -/
theorem C2_amended_only_last_two_years_witness :
    2 ≤ (sortedYears exThreeYears).length ∧
    (cv_artists exThreeYears "T" none none =
      cv_artists [(prev_year exThreeYears, data_prev_all exThreeYears),
                  (curr_year exThreeYears, data_curr_all exThreeYears)] "T" none none ∧
     prev_year exThreeYears =
       (sortedYears exThreeYears).getD ((sortedYears exThreeYears).length - 2) "" ∧
     curr_year exThreeYears =
       (sortedYears exThreeYears).getD ((sortedYears exThreeYears).length - 1) "") :=
  ⟨by decide, C2_amended_only_last_two_years exThreeYears "T" none none (by decide)⟩

theorem column_artists_mem (draw : Nat → Item → List Artist) (l : List Item) :
    ∀ (base j : Nat) (it : Item) (a : Artist),
      l[j]? = some it → a ∈ draw (base + j) it → a ∈ column_artists draw base l := by
  induction l with
  | nil => intro base j it a h _; simp at h
  | cons x rest ih =>
    intro base j it a h ha
    cases j with
    | zero =>
      simp only [List.getElem?_cons_zero, Option.some.injEq] at h
      subst h
      exact List.mem_append.mpr (Or.inl (by simpa using ha))
    | succ j' =>
      simp only [List.getElem?_cons_succ] at h
      refine List.mem_append.mpr (Or.inr ?_)
      have hb : base + (j' + 1) = (base + 1) + j' := by omega
      rw [hb] at ha
      exact ih (base + 1) j' it a h ha

theorem mem_curr_column_cv_core (py cy : String) (dpa dca : List Item)
    (t : String) (s : Option String) (ov : Option ℤ) (a : Artist)
    (h : a ∈ curr_column dpa dca ov) : a ∈ cv_core py cy dpa dca t s ov := by
  simp only [cv_core, List.mem_append]
  tauto

theorem get_rank_in_data_mem (name : String) (l : List Item) (r : ℤ)
    (h : get_rank_in_data name l = some r) : ∃ x ∈ l, x.rank = r := by
  unfold get_rank_in_data at h
  cases hf : l.find? (fun it => it.item = name) with
  | none => rw [hf] at h; simp at h
  | some it =>
    rw [hf] at h
    simp only [Option.some.injEq] at h
    exact ⟨it, List.mem_of_find?_eq_some hf, h⟩

/-- C4: every current-year top item whose name is absent from the
previous year's rendered top list gets a `NEW` label; if its name also
has a rank in the full previous-year data (whose ranks, per the data
model, are positive), a small circle showing that previous rank is drawn
next to the label. -/
theorem C4_new_entry_annotations (py cy : String) (dpa dca : List Item)
    (t : String) (s : Option String) (ov : Option ℤ) (j : Nat) (it : Item)
    (hj : (data_curr dpa dca ov)[j]? = some it)
    (hnew : it.item ∉ items_prev_top dpa dca ov)
    (hranks : ∀ x ∈ dpa, 0 < x.rank) :
    (∃ x : ℚ, Artist.text x (rowY j) "NEW" "#444444" 4
        ∈ cv_core py cy dpa dca t s ov) ∧
    (∀ r : ℤ, get_rank_in_data it.item dpa = some r →
      Artist.circle 63 (rowY j) (6/5) (colorOf dpa dca (it.category.getD "Unknown")) 3
          ∈ cv_core py cy dpa dca t s ov ∧
      Artist.text 63 (rowY j) (toString r) "white" 4 ∈ cv_core py cy dpa dca t s ov ∧
      Artist.text 56 (rowY j) "NEW" "#444444" 4 ∈ cv_core py cy dpa dca t s ov) := by
  have hcc : ∀ a : Artist, a ∈ new_entry_artists dpa dca ov j it →
      a ∈ cv_core py cy dpa dca t s ov := by
    intro a ha
    apply mem_curr_column_cv_core
    unfold curr_column
    refine column_artists_mem _ _ 0 j it a hj ?_
    rw [Nat.zero_add]
    exact List.mem_append.mpr (Or.inr ha)
  constructor
  · cases hr : get_rank_in_data it.item dpa with
    | none =>
      refine ⟨63, hcc _ ?_⟩
      simp [new_entry_artists, hnew, hr]
    | some r =>
      obtain ⟨x, hx, hxr⟩ := get_rank_in_data_mem _ _ _ hr
      have hr0 : ¬ r = 0 := by have := hranks x hx; omega
      refine ⟨56, hcc _ ?_⟩
      simp [new_entry_artists, hnew, hr, hr0]
  · intro r hr
    obtain ⟨x, hx, hxr⟩ := get_rank_in_data_mem _ _ _ hr
    have hr0 : ¬ r = 0 := by have := hranks x hx; omega
    refine ⟨hcc _ ?_, hcc _ ?_, hcc _ ?_⟩ <;>
      simp [new_entry_artists, hnew, hr, hr0]

/-- C4 witness data: previous year has `Alpha` first and `Beta` second. -/
def exNewPrev : List Item := [mk_item "Alpha" 1 "X", mk_item "Beta" 2 "Y"]

/-- C4 witness data: current year has `Beta` first. -/
def exNewCurr : List Item := [mk_item "Beta" 1 "Y"]

/-- C4 witness: with one shown entry, `Beta` is new to the shown top list
but ranked 2 in the full previous data, so it gets the `NEW` label and
the small previous-rank circle. -/
theorem C4_new_entry_annotations_witness :
    ((data_curr exNewPrev exNewCurr (some 1))[0]? = some (mk_item "Beta" 1 "Y") ∧
     (mk_item "Beta" 1 "Y").item ∉ items_prev_top exNewPrev exNewCurr (some 1) ∧
     (∀ x ∈ exNewPrev, 0 < x.rank) ∧
     get_rank_in_data (mk_item "Beta" 1 "Y").item exNewPrev = some 2) ∧
    (∃ x : ℚ, Artist.text x (rowY 0) "NEW" "#444444" 4
        ∈ cv_core "2021" "2022" exNewPrev exNewCurr "T" none (some 1)) ∧
    (Artist.circle 63 (rowY 0) (6/5)
        (colorOf exNewPrev exNewCurr ((mk_item "Beta" 1 "Y").category.getD "Unknown")) 3
        ∈ cv_core "2021" "2022" exNewPrev exNewCurr "T" none (some 1) ∧
     Artist.text 63 (rowY 0) (toString (2 : ℤ)) "white" 4
        ∈ cv_core "2021" "2022" exNewPrev exNewCurr "T" none (some 1) ∧
     Artist.text 56 (rowY 0) "NEW" "#444444" 4
        ∈ cv_core "2021" "2022" exNewPrev exNewCurr "T" none (some 1)) :=
  ⟨⟨by decide, by decide, by decide, by decide⟩,
   (C4_new_entry_annotations "2021" "2022" exNewPrev exNewCurr "T" none (some 1) 0
     (mk_item "Beta" 1 "Y") (by decide) (by decide) (by decide)).1,
   (C4_new_entry_annotations "2021" "2022" exNewPrev exNewCurr "T" none (some 1) 0
     (mk_item "Beta" 1 "Y") (by decide) (by decide) (by decide)).2 2 (by decide)⟩

/-! ### Position-dict and flow-curve lemmas (claims C5, C6) -/

theorem lookupLast_isSome_iff {α : Type} (d : List (String × α)) (k : String) :
    (lookupLast d k).isSome = true ↔ k ∈ d.map Prod.fst := by
  induction d with
  | nil => simp [lookupLast]
  | cons p rest ih =>
    obtain ⟨k', v⟩ := p
    simp only [lookupLast, List.map_cons, List.mem_cons]
    cases h : lookupLast rest k with
    | some r =>
      rw [h] at ih
      simp only [Option.isSome_some, true_iff] at ih
      simp [ih]
    | none =>
      rw [h] at ih
      simp only [Option.isSome_none, Bool.false_eq_true, false_iff] at ih
      by_cases hk : k' = k
      · simp [hk]
      · simp only [if_neg hk, Option.isSome_none, Bool.false_eq_true, false_iff]
        push_neg
        exact ⟨fun he => hk he.symm, ih⟩

theorem mem_keys_insertDict {α : Type} (d : List (String × α)) (k k' : String)
    (v : α) :
    k' ∈ (insertDict d k v).map Prod.fst ↔ k' ∈ d.map Prod.fst ∨ k' = k := by
  unfold insertDict
  by_cases h : (lookupLast d k).isSome = true
  · rw [if_pos h]
    have hkeys : (d.map (fun p => if p.1 = k then (k, v) else p)).map Prod.fst =
        d.map Prod.fst := by
      rw [List.map_map]
      apply List.map_congr_left
      intro p _
      by_cases hp : p.1 = k
      · simp [hp]
      · simp [hp]
    rw [hkeys]
    constructor
    · exact Or.inl
    · rintro (h' | rfl)
      · exact h'
      · exact (lookupLast_isSome_iff d k').mp h
  · rw [if_neg h]
    simp

theorem positions_fold_keys (x : ℚ) (l : List Item) :
    ∀ (i : Nat) (acc : List (String × (ℚ × ℚ))) (k : String),
      (k ∈ (positions_fold x i acc l).map Prod.fst) ↔
        k ∈ acc.map Prod.fst ∨ k ∈ l.map Item.item := by
  induction l with
  | nil => intro i acc k; simp [positions_fold]
  | cons it rest ih =>
    intro i acc k
    simp only [positions_fold, List.map_cons, List.mem_cons]
    rw [ih, mem_keys_insertDict]
    tauto

theorem positions_prev_keys (dpa dca : List Item) (ov : Option ℤ) (k : String) :
    k ∈ (positions_prev dpa dca ov).map Prod.fst ↔
      k ∈ (data_prev dpa dca ov).map Item.item := by
  unfold positions_prev
  rw [positions_fold_keys]
  simp

theorem positions_curr_keys (dpa dca : List Item) (ov : Option ℤ) (k : String) :
    k ∈ (positions_curr dpa dca ov).map Prod.fst ↔
      k ∈ (data_curr dpa dca ov).map Item.item := by
  unfold positions_curr
  rw [positions_fold_keys]
  simp

theorem drawn_curves_mem (dpa dca : List Item) (ov : Option ℤ)
    (name : String) (arts : List Artist) :
    (name, arts) ∈ drawn_curves dpa dca ov ↔
      ∃ pt q, (name, pt) ∈ positions_curr dpa dca ov ∧
        lookupLast (positions_prev dpa dca ov) name = some q ∧
        arts = curve_arts dpa dca name q pt := by
  unfold drawn_curves
  rw [List.mem_filterMap]
  constructor
  · rintro ⟨⟨pn, ppt⟩, hp, hf⟩
    cases hq : lookupLast (positions_prev dpa dca ov) pn with
    | none => rw [hq] at hf; simp at hf
    | some q =>
      rw [hq] at hf
      simp only [Option.some.injEq, Prod.mk.injEq] at hf
      obtain ⟨rfl, harts⟩ := hf
      exact ⟨ppt, q, hp, hq, harts.symm⟩
  · rintro ⟨pt, q, hmem, hq, rfl⟩
    exact ⟨(name, pt), hmem, by simp [hq]⟩

theorem ratFloor_eq_intFloor (q : ℚ) : q.floor = ⌊q⌋ := by
  rw [Rat.floor_def']
  exact Rat.floor_def.symm

theorem cmap_idx_zero : (min (((0 : ℚ) * 100).floor).toNat 99) = 0 := by
  have h : ((0 : ℚ)).floor = 0 := by
    rw [ratFloor_eq_intFloor]
    norm_num
  rw [show ((0 : ℚ) * 100) = 0 by ring, h]
  decide

theorem cmap_idx_last : (min ((((148 : ℚ) / 149) * 100).floor).toNat 99) = 99 := by
  have h : ((14800 / 149 : ℚ)).floor = 99 := by
    rw [ratFloor_eq_intFloor]
    rw [Int.floor_eq_iff]
    constructor <;> norm_num
  rw [show ((148 : ℚ) / 149) * 100 = 14800 / 149 by ring, h]
  decide

theorem cmapAt_zero (c0 c1 : ℚ × ℚ × ℚ) : cmapAt c0 c1 0 = c0 := by
  obtain ⟨a, b, c⟩ := c0
  have h0 : (((0 : Nat) : ℚ)) / 99 = 0 := by norm_num
  simp only [cmapAt, cmap_idx_zero, lutColor, h0, Prod.mk.injEq]
  refine ⟨?_, ?_, ?_⟩ <;> ring

theorem cmapAt_last (c0 c1 : ℚ × ℚ × ℚ) : cmapAt c0 c1 (148/149) = c1 := by
  obtain ⟨a, b, c⟩ := c0
  obtain ⟨d, e, f⟩ := c1
  have h99 : (((99 : Nat) : ℚ)) / 99 = 1 := by norm_num
  simp only [cmapAt, cmap_idx_last, lutColor, h99, Prod.mk.injEq]
  refine ⟨?_, ?_, ?_⟩ <;> ring

theorem curve_points_getD_zero (x1 y1 x2 y2 : ℚ) :
    (curve_points x1 y1 x2 y2).getD 0 (0, 0) = (x1, y1) := by
  rw [List.getD_eq_getElem?_getD, curve_points_get x1 y1 x2 y2 0 (by norm_num)]
  norm_num [bezier_point_zero]

theorem curve_points_getD_last (x1 y1 x2 y2 : ℚ) :
    (curve_points x1 y1 x2 y2).getD 149 (0, 0) = (x2, y2) := by
  rw [List.getD_eq_getElem?_getD, curve_points_get x1 y1 x2 y2 149 (by norm_num)]
  have h1 : ((149 : Nat) : ℚ) / 149 = 1 := by norm_num
  rw [h1, bezier_point_one]
  rfl

theorem draw_flow_curve_first_seg (x1 y1 x2 y2 : ℚ) (sc ec : String)
    (al w : ℚ) (rc : Option ℤ) :
    (draw_flow_curve x1 y1 x2 y2 sc ec al w rc)[0]? =
      some (Artist.segment x1 y1
        ((curve_points x1 y1 x2 y2).getD 1 (0, 0)).1
        ((curve_points x1 y1 x2 y2).getD 1 (0, 0)).2 (to_rgb sc) al w 5) := by
  unfold draw_flow_curve
  rw [List.getElem?_append_left
    (by simp only [List.length_map, List.length_range]; norm_num)]
  rw [List.getElem?_map, List.getElem?_range (by norm_num)]
  rw [Option.map_some']
  rw [curve_points_getD_zero]
  have h0 : ((0 : Nat) : ℚ) / 149 = 0 := by norm_num
  rw [h0, cmapAt_zero]

theorem draw_flow_curve_last_seg (x1 y1 x2 y2 : ℚ) (sc ec : String)
    (al w : ℚ) (rc : Option ℤ) :
    (draw_flow_curve x1 y1 x2 y2 sc ec al w rc)[148]? =
      some (Artist.segment
        ((curve_points x1 y1 x2 y2).getD 148 (0, 0)).1
        ((curve_points x1 y1 x2 y2).getD 148 (0, 0)).2 x2 y2
        (to_rgb ec) al w 5) := by
  unfold draw_flow_curve
  rw [List.getElem?_append_left
    (by simp only [List.length_map, List.length_range]; norm_num)]
  rw [List.getElem?_map, List.getElem?_range (by norm_num)]
  rw [Option.map_some']
  rw [show (148 : Nat) + 1 = 149 from rfl, curve_points_getD_last]
  have h1 : ((148 : Nat) : ℚ) / 149 = 148 / 149 := by norm_num
  rw [h1, cmapAt_last]

/-- C5: a flow curve is drawn for an item iff its name appears in both
years' rendered top lists; its first segment starts at the item's
previous-year position with exactly the previous-year category's color,
and its last (149th) segment ends at the item's current-year position
with exactly the current-year category's color (the 100-entry gradient
LUT hits the two pure endpoint colors at parameters 0 and 148/149). -/
theorem C5_flow_curve_iff_and_gradient (dpa dca : List Item) (ov : Option ℤ)
    (name : String) :
    ((∃ arts, (name, arts) ∈ drawn_curves dpa dca ov) ↔
      (name ∈ items_prev_top dpa dca ov ∧ name ∈ items_curr_top dpa dca ov)) ∧
    (∀ arts, (name, arts) ∈ drawn_curves dpa dca ov →
      ∃ x1 y1 x2 y2 xa ya xb yb w : ℚ,
        lookupLast (positions_prev dpa dca ov) name = some (x1, y1) ∧
        (name, (x2, y2)) ∈ positions_curr dpa dca ov ∧
        arts[0]? = some (Artist.segment x1 y1 xa ya
          (to_rgb (colorOf dpa dca (prev_category dpa name))) (13/20) w 5) ∧
        arts[148]? = some (Artist.segment xb yb x2 y2
          (to_rgb (colorOf dpa dca (curr_category dca name))) (13/20) w 5)) := by
  constructor
  · constructor
    · rintro ⟨arts, h⟩
      obtain ⟨pt, q, hmem, hq, _⟩ := (drawn_curves_mem dpa dca ov name arts).mp h
      constructor
      · rw [items_prev_top, mem_dedupFirst, ← positions_prev_keys dpa dca ov,
          ← lookupLast_isSome_iff]
        rw [hq]
        rfl
      · rw [items_curr_top, mem_dedupFirst, ← positions_curr_keys dpa dca ov]
        exact List.mem_map.mpr ⟨(name, pt), hmem, rfl⟩
    · rintro ⟨hp, hc⟩
      rw [items_prev_top, mem_dedupFirst, ← positions_prev_keys dpa dca ov,
        ← lookupLast_isSome_iff] at hp
      rw [items_curr_top, mem_dedupFirst, ← positions_curr_keys dpa dca ov] at hc
      obtain ⟨q, hq⟩ := Option.isSome_iff_exists.mp hp
      obtain ⟨⟨pn, pt⟩, hpmem, hpn⟩ := List.mem_map.mp hc
      subst hpn
      exact ⟨curve_arts dpa dca pn q pt,
        (drawn_curves_mem dpa dca ov pn _).mpr ⟨pt, q, hpmem, hq, rfl⟩⟩
  · intro arts h
    obtain ⟨pt, q, hmem, hq, harts⟩ := (drawn_curves_mem dpa dca ov name arts).mp h
    obtain ⟨qx, qy⟩ := q
    obtain ⟨px, py⟩ := pt
    refine ⟨qx, qy, px, py,
      ((curve_points qx qy px py).getD 1 (0, 0)).1,
      ((curve_points qx qy px py).getD 1 (0, 0)).2,
      ((curve_points qx qy px py).getD 148 (0, 0)).1,
      ((curve_points qx qy px py).getD 148 (0, 0)).2,
      width_for name dca, hq, hmem, ?_, ?_⟩
    · rw [harts]
      exact draw_flow_curve_first_seg qx qy px py _ _ _ _ _
    · rw [harts]
      exact draw_flow_curve_last_seg qx qy px py _ _ _ _ _

theorem draw_flow_curve_indicator (x1 y1 x2 y2 : ℚ) (sc ec : String)
    (al w : ℚ) (rc : ℤ) :
    ∃ mx my : ℚ, Artist.text mx my (rank_change_text rc) (rank_change_color rc) 11
      ∈ draw_flow_curve x1 y1 x2 y2 sc ec al w (some rc) := by
  refine ⟨((curve_points x1 y1 x2 y2).getD 75 (0, 0)).1,
          ((curve_points x1 y1 x2 y2).getD 75 (0, 0)).2, ?_⟩
  unfold draw_flow_curve
  refine List.mem_append.mpr (Or.inr ?_)
  simp

theorem draw_flow_curve_no_indicator (x1 y1 x2 y2 : ℚ) (sc ec : String)
    (al w : ℚ) (mx my : ℚ) (s c : String) :
    Artist.text mx my s c 11 ∉ draw_flow_curve x1 y1 x2 y2 sc ec al w none := by
  unfold draw_flow_curve
  intro hmem
  rcases List.mem_append.mp hmem with hmem | hmem
  · obtain ⟨i, _, heq⟩ := List.mem_map.mp hmem
    simp at heq
  · simp at hmem

/-- C6: for an item drawn with a flow curve, when its name has a rank in
both full year lists the indicator on the curve shows previous rank minus
current rank, formatted with a leading `+` when positive, plain when
negative, and `"0"` when zero; when either rank is missing, no indicator
text is drawn on that curve. -/
theorem C6_rank_delta_indicator (dpa dca : List Item) (ov : Option ℤ)
    (name : String) (arts : List Artist)
    (h : (name, arts) ∈ drawn_curves dpa dca ov) :
    (∀ r1 r2 : ℤ, get_rank_in_data name dpa = some r1 →
        get_rank_in_data name dca = some r2 →
        ∃ mx my : ℚ,
          Artist.text mx my (rank_change_text (r1 - r2))
            (rank_change_color (r1 - r2)) 11 ∈ arts) ∧
    ((get_rank_in_data name dpa = none ∨ get_rank_in_data name dca = none) →
        ∀ (mx my : ℚ) (s c : String), Artist.text mx my s c 11 ∉ arts) ∧
    (∀ d : ℤ, (0 < d → rank_change_text d = "+" ++ toString d) ∧
        (d < 0 → rank_change_text d = toString d) ∧
        (d = 0 → rank_change_text d = "0")) := by
  obtain ⟨pt, q, hmem, hq, harts⟩ := (drawn_curves_mem dpa dca ov name arts).mp h
  subst harts
  refine ⟨?_, ?_, ?_⟩
  · intro r1 r2 h1 h2
    simp only [curve_arts, h1, h2]
    exact draw_flow_curve_indicator _ _ _ _ _ _ _ _ (r1 - r2)
  · intro hnone mx my s c
    rcases hnone with hn | hn
    · simp only [curve_arts, hn]
      apply draw_flow_curve_no_indicator
    · cases hx : get_rank_in_data name dpa with
      | none =>
        simp only [curve_arts, hx]
        apply draw_flow_curve_no_indicator
      | some r1 =>
        simp only [curve_arts, hx, hn]
        apply draw_flow_curve_no_indicator
  · intro d
    refine ⟨fun hd => ?_, fun hd => ?_, fun hd => ?_⟩
    · simp [rank_change_text, hd]
    · have hnd : ¬ 0 < d := by omega
      simp [rank_change_text, hnd, hd]
    · subst hd
      simp [rank_change_text]

/-- C6 witness data: previous year, `Alpha` then `Beta`. -/
def exFlowPrev : List Item := [mk_item "Alpha" 1 "X", mk_item "Beta" 2 "Y"]

/-- C6 witness data: current year, `Beta` then `Alpha`. -/
def exFlowCurr : List Item := [mk_item "Beta" 1 "Y", mk_item "Alpha" 2 "X"]

/-- C6 witness: `Beta` moves from rank 2 to rank 1; its curve carries the
`+1` indicator. -/
theorem C6_rank_delta_indicator_witness :
    (("Beta", curve_arts exFlowPrev exFlowCurr "Beta" (25, rowY 1) (75, rowY 0))
        ∈ drawn_curves exFlowPrev exFlowCurr none) ∧
    get_rank_in_data "Beta" exFlowPrev = some 2 ∧
    get_rank_in_data "Beta" exFlowCurr = some 1 ∧
    (∃ mx my : ℚ,
      Artist.text mx my (rank_change_text (2 - 1)) (rank_change_color (2 - 1)) 11
        ∈ curve_arts exFlowPrev exFlowCurr "Beta" (25, rowY 1) (75, rowY 0)) := by
  have hpos : positions_curr exFlowPrev exFlowCurr none =
      [("Beta", (75, rowY 0)), ("Alpha", (75, rowY 1))] := rfl
  have hmem : ("Beta", ((75 : ℚ), rowY 0)) ∈ positions_curr exFlowPrev exFlowCurr none := by
    rw [hpos]
    exact List.Mem.head _
  have hq : lookupLast (positions_prev exFlowPrev exFlowCurr none) "Beta" =
      some (25, rowY 1) := rfl
  have h : ("Beta", curve_arts exFlowPrev exFlowCurr "Beta" (25, rowY 1) (75, rowY 0))
      ∈ drawn_curves exFlowPrev exFlowCurr none :=
    (drawn_curves_mem exFlowPrev exFlowCurr none "Beta" _).mpr
      ⟨(75, rowY 0), (25, rowY 1), hmem, hq, rfl⟩
  exact ⟨h, by decide, by decide,
    (C6_rank_delta_indicator exFlowPrev exFlowCurr none "Beta"
      (curve_arts exFlowPrev exFlowCurr "Beta" (25, rowY 1) (75, rowY 0)) h).1 2 1
      (by decide) (by decide)⟩
